import Mathlib

/-!
# Verification of the awair-tui dashboard core

A shallow embedding, in Lean 4, of the Go sources of `awair-tui`
(`api.go`, `main.go`, `ui.go`, `config.go`) together with proofs of the
behavioural properties of its specification.

Modelling conventions:
* Go `float64` sensor values are modelled as `ℚ` (exact arithmetic; all the
  thresholds in the program are small integers).
* Go `map[string]T` values owned by the model are represented as association
  lists `List (String × T)`; `map[k]` reads become `lookupIP`.
* Go `error` values are modelled as `Option String` (the message);
  `nil` is `none`.
* `time.Time` is modelled as `Nat` (an abstract clock instant); the zero
  `time.Time` of a fresh `Device` is `Option.none`.
* Terminal-styling wrappers (`lipgloss.NewStyle…Render`) are identity on the
  text content and are elided; only the plain text is modelled.
* Bubbletea commands (`tea.Cmd`) are external effects; the reducer is
  modelled as its state transformation, with the ambient clock passed
  explicitly as `now`.
-/

namespace AwairTui

/-- `SensorRange` from `api.go`: the optimal range for a sensor reading. -/
structure SensorRange where
  min : ℚ
  max : ℚ
  unit : String
  label : String
deriving DecidableEq, Repr

/-- `OptimalRanges` from `api.go`: per-sensor optimal ranges (temperatures in
°F for rating).  The Go `map` literal is keyed by the nine catalog keys; a
missing key is `none` (in Go, lookup with `ok = false`). -/
def OptimalRanges (key : String) : Option SensorRange :=
  if key = "temp" then some ⟨68, 77, "°F", "Temperature"⟩
  else if key = "dew_point" then some ⟨50, 65, "°F", "Dew Point"⟩
  else if key = "humid" then some ⟨40, 50, "%", "Humidity"⟩
  else if key = "abs_humid" then some ⟨4, 12, "g/m³", "Abs Humidity"⟩
  else if key = "co2" then some ⟨0, 600, "ppm", "CO₂"⟩
  else if key = "co2_est" then some ⟨0, 600, "ppm", "CO₂ (est)"⟩
  else if key = "voc" then some ⟨0, 300, "ppb", "VOC"⟩
  else if key = "pm25" then some ⟨0, 12, "µg/m³", "PM2.5"⟩
  else if key = "pm10_est" then some ⟨0, 50, "µg/m³", "PM10 (est)"⟩
  else none

/-- `CToF` from `api.go`: Celsius to Fahrenheit. -/
def CToF (c : ℚ) : ℚ := c * 9 / 5 + 32

/-- `RateSensorValue` from `api.go`: returns `"good"`, `"fair"`, or `"poor"`
for a sensor value.  For `temp`/`dew_point` the value is expected in °F.
The Go `switch key` is transcribed branch by branch; the `default` arm is
the lower-is-better rule (`co2`, `co2_est`, `voc`, `pm25`, `pm10_est`). -/
def RateSensorValue (key : String) (value : ℚ) : String :=
  match OptimalRanges key with
  | none => "fair"
  | some r =>
    if key = "temp" ∨ key = "dew_point" then
      if r.min ≤ value ∧ value ≤ r.max then "good"
      else
        let dist := if value > r.max then value - r.max else r.min - value
        if dist ≤ 5 then "fair" else "poor"
    else if key = "humid" then
      if r.min ≤ value ∧ value ≤ r.max then "good"
      else
        let dist := if value > r.max then value - r.max else r.min - value
        if dist ≤ 10 then "fair" else "poor"
    else if key = "abs_humid" then
      if r.min ≤ value ∧ value ≤ r.max then "good" else "fair"
    else
      if value ≤ r.max then "good"
      else if value ≤ r.max * 2 then "fair"
      else "poor"

/-- `math.Round` of Go: round half away from zero, as an integer. -/
def mathRound (q : ℚ) : Int :=
  if q < 0 then -⌊-q + 1/2⌋ else ⌊q + 1/2⌋

/-- `fmt.Sprintf "%.1f"` modelled over `ℚ`: fixed-point with one decimal.
(Go formats the binary double with round-to-nearest; ties are immaterial to
every property proved below.) -/
def fmtFixed1 (q : ℚ) : String :=
  let n := mathRound (q * 10)
  let sign := if n < 0 then "-" else ""
  let a := n.natAbs
  sign ++ toString (a / 10) ++ "." ++ toString (a % 10)

/-- `FormatValue` from `api.go`: formats a sensor value for display.  The
`default` arm is `fmt.Sprintf("%.0f %s", math.Round(value), r.Unit)`.
A key outside the catalog reads Go's zero-valued `SensorRange`. -/
def FormatValue (key : String) (value : ℚ) (fahrenheit : Bool) : String :=
  let r := (OptimalRanges key).getD ⟨0, 0, "", ""⟩
  if key = "temp" ∨ key = "dew_point" then
    if fahrenheit then fmtFixed1 (CToF value) ++ "°F"
    else fmtFixed1 value ++ "°C"
  else if key = "humid" then
    fmtFixed1 value ++ r.unit
  else if key = "abs_humid" then
    fmtFixed1 value ++ " " ++ r.unit
  else
    toString (mathRound value) ++ " " ++ r.unit

/-- `DisplayValue` from `api.go`: the value used for rating and bar display.
For `temp`/`dew_point` this is always °F (ratings are defined in °F). -/
def DisplayValue (key : String) (rawCelsius : ℚ) : ℚ :=
  if key = "temp" ∨ key = "dew_point" then CToF rawCelsius
  else rawCelsius

/-- `SensorData` from `api.go`: the JSON response from `/air-data/latest`.
Pointer-typed fields are `Option`. -/
structure SensorData where
  timestamp : String
  score : Int
  dewPoint : Option ℚ
  temp : ℚ
  humid : ℚ
  absHumid : Option ℚ
  co2 : ℚ
  co2Est : Option ℚ
  co2EstBaseline : Option ℚ
  voc : ℚ
  vocBaseline : Option ℚ
  vocH2Raw : Option ℚ
  vocEthanolRaw : Option ℚ
  pm25 : ℚ
  pm10Est : Option ℚ
deriving DecidableEq, Repr

/-- `DeviceConfig` from `api.go`: the JSON response from
`/settings/config/data`. -/
structure DeviceConfig where
  deviceUUID : String
  wifiMAC : String
  ssid : String
  ip : String
  netmask : String
  gateway : String
  fwVersion : String
  timezone : String
  display : String
deriving DecidableEq, Repr

/-- `Device` from `api.go`: the state for a single Awair device.  `LastError`
is the error message (`none` = nil); `LastUpdate` is `none` for the zero
`time.Time`. -/
structure Device where
  ip : String
  name : String
  data : Option SensorData
  config : Option DeviceConfig
  lastError : Option String
  lastUpdate : Option Nat
deriving DecidableEq, Repr

/-- `logEntry` from `ui.go`: a timestamped log message. -/
structure LogEntry where
  time : Nat
  message : String
deriving DecidableEq, Repr

/-- `Config` from `config.go`: persistent IP → friendly-name mapping,
modelled as an association list. -/
structure Config where
  devices : List (String × String)
deriving DecidableEq, Repr

/-- `model` from `ui.go`: the bubbletea application state.  The bubbles
textinput widget is modelled by its value, focus flag and placeholder; the
discovery cancel function is an external effect and is elided. -/
structure Model where
  devices : List (String × Device)
  deviceOrder : List String
  config : Config
  logs : List LogEntry
  width : Int
  height : Int
  fahrenheit : Bool
  showPrompt : Bool
  promptStep : String
  promptInput : String
  promptFocused : Bool
  promptPlaceholder : String
  pendingIP : String
  pollInterval : Int
  noDiscovery : Bool
deriving DecidableEq, Repr

/-- Go map read: the first binding for the key (`none` when absent). -/
def lookupIP {α : Type} : List (String × α) → String → Option α
  | [], _ => none
  | (k, v) :: rest, j => if j = k then some v else lookupIP rest j

/-- `addLog` from `ui.go`: append an entry; evict the oldest once the length
exceeds 100. -/
def addLog (m : Model) (now : Nat) (msg : String) : Model :=
  let logs := m.logs ++ [⟨now, msg⟩]
  { m with logs := if logs.length > 100 then logs.drop 1 else logs }

/-- Go map read `m.config.Devices[ip]`: the empty string when absent. -/
def configNameOf (m : Model) (ip : String) : String :=
  (lookupIP m.config.devices ip).getD ""

/-- In-place mutation through the `*Device` held in the map: replace the
entry for `ip` (Go mutates the pointed-to struct). -/
def setDevice (devs : List (String × Device)) (ip : String) (d : Device) :
    List (String × Device) :=
  devs.map (fun p => if p.1 = ip then (ip, d) else p)

/-- Go map write `xs[k] = v` on a name map. -/
def mapInsert (xs : List (String × String)) (k v : String) :
    List (String × String) :=
  if (lookupIP xs k).isSome then xs.map (fun p => if p.1 = k then (k, v) else p)
  else xs ++ [(k, v)]

/-- `addDevice` from `ui.go`: upsert a device.  Config names take priority;
a proposed name only replaces a name that still equals the bare IP; a new
device is appended to `deviceOrder`. -/
def addDevice (m : Model) (ip name : String) : Model × Device :=
  let configName := configNameOf m ip
  match lookupIP m.devices ip with
  | some existing =>
    let existing' :=
      if configName ≠ "" then { existing with name := configName }
      else if name ≠ "" ∧ existing.name = ip then { existing with name := name }
      else existing
    ({ m with devices := setDevice m.devices ip existing' }, existing')
  | none =>
    let displayName :=
      if configName ≠ "" then configName
      else if name ≠ "" then name
      else ip
    let dev : Device := ⟨ip, displayName, none, none, none, none⟩
    ({ m with devices := m.devices ++ [(ip, dev)],
              deviceOrder := m.deviceOrder ++ [ip] }, dev)

/-- `orderedDevices` from `ui.go`: devices in stable insertion order. -/
def orderedDevices (m : Model) : List Device :=
  m.deviceOrder.filterMap (fun ip => lookupIP m.devices ip)

/-- `initialModel` from `ui.go`: fresh state with CLI-seeded devices.
`pollInterval` is `time.Duration(interval) * time.Second`, recorded in
seconds; no lower bound is applied to `interval`. -/
def initialModel (cfg : Config) (ips : List String) (interval : Int)
    (noDiscovery fahrenheit : Bool) (now : Nat) : Model :=
  let m : Model :=
    { devices := [], deviceOrder := [], config := cfg, logs := [],
      width := 0, height := 0, fahrenheit := fahrenheit,
      showPrompt := false, promptStep := "", promptInput := "",
      promptFocused := false, promptPlaceholder := "", pendingIP := "",
      pollInterval := interval, noDiscovery := noDiscovery }
  let m :=
    if m.config.devices.length > 0 then
      addLog m now
        ("Loaded " ++ toString m.config.devices.length ++ " device name(s) from config")
    else m
  ips.foldl (fun m ip =>
    let md := addDevice m ip ""
    addLog md.1 now ("Added device: " ++ md.2.name)) m

/-- `main` from `main.go`: the `-interval`/`-i` flag parses to its supplied
value, or the default 10 when absent from the command line. -/
def parsedInterval (flagValue : Option Int) : Int :=
  flagValue.getD 10

/-- ASCII decimal digit. -/
def isDigitCh (c : Char) : Bool := '0' ≤ c && c ≤ '9'

/-- Hexadecimal digit. -/
def isHexDigitCh (c : Char) : Bool :=
  ('0' ≤ c && c ≤ '9') || ('a' ≤ c && c ≤ 'f') || ('A' ≤ c && c ≤ 'F')

/-- Numeric value of a decimal digit string. -/
def decValue (cs : List Char) : Nat :=
  cs.foldl (fun acc c => acc * 10 + (c.toNat - '0'.toNat)) 0

/-- One dotted-quad field per Go `net.ParseIP` (via `net/netip`): 1–3
decimal digits, no leading zero, value at most 255. -/
def validV4Field (s : String) : Bool :=
  let cs := s.toList
  !cs.isEmpty && decide (cs.length ≤ 3) && cs.all isDigitCh &&
    (decide (cs.length = 1) || cs.head? != some '0') && decide (decValue cs ≤ 255)

/-- IPv4 dotted-quad literal per Go `net.ParseIP`. -/
def validIPv4 (s : String) : Bool :=
  let fields := s.splitOn "."
  decide (fields.length = 4) && fields.all validV4Field

/-- One hexadecimal group of an IPv6 literal: 1–4 hex digits. -/
def validV6Group (s : String) : Bool :=
  let cs := s.toList
  !cs.isEmpty && decide (cs.length ≤ 4) && cs.all isHexDigitCh

/-- Group count of a run of colon-separated parts: every part but the last
must be a hex group; the last may be a hex group (one group) or an embedded
IPv4 dotted quad (two groups). -/
def v6GroupCount : List String → Option Nat
  | [] => none
  | [last] =>
      if validV6Group last then some 1
      else if validIPv4 last then some 2
      else none
  | p :: rest =>
      match v6GroupCount rest with
      | some g => if validV6Group p then some (g + 1) else none
      | none => none

/-- Splits a part list at its first empty part (the `::`). -/
def splitAtFirstEmpty : List String → Option (List String × List String)
  | [] => none
  | "" :: rest => some ([], rest)
  | p :: rest =>
      match splitAtFirstEmpty rest with
      | some lr => some (p :: lr.1, lr.2)
      | none => none

/-- IPv6 literal per Go `net.ParseIP` (via `net/netip`, zones rejected):
hex groups separated by colons, at most one `::` which must stand for at
least one zero group, an optional trailing embedded IPv4 counting as two
groups, eight groups in total. -/
def validIPv6 (s : String) : Bool :=
  if s = "::" then true
  else
    let parts := s.splitOn ":"
    match parts with
    | "" :: "" :: rest =>
        if rest.all (fun p => p != "") then
          match v6GroupCount rest with
          | some g => decide (g ≤ 7)
          | none => false
        else false
    | _ =>
        if parts.all (fun p => p != "") then
          match v6GroupCount parts with
          | some g => decide (g = 8)
          | none => false
        else if parts.getLast? = some "" then
          match parts.reverse with
          | "" :: "" :: frontRev =>
              !frontRev.isEmpty && frontRev.all (fun p => p != "" && validV6Group p) &&
                decide (frontRev.length ≤ 7)
          | _ => false
        else
          match splitAtFirstEmpty parts with
          | some lr =>
              !lr.1.isEmpty && lr.1.all validV6Group &&
                !lr.2.isEmpty && lr.2.all (fun p => p != "") &&
                (match v6GroupCount lr.2 with
                 | some g => decide (lr.1.length + g ≤ 7)
                 | none => false)
          | none => false

/-- `isValidIP` from `ui.go`: `net.ParseIP(s) != nil`.  `ParseIP` dispatches
on the first `.` or `:` of the string. -/
def isValidIP (s : String) : Bool :=
  match s.toList.find? (fun c => c == '.' || c == ':') with
  | some '.' => validIPv4 s
  | some _ => validIPv6 s
  | none => false

/-- `strings.TrimSpace` (whitespace modelled as the ASCII space class). -/
def isSpaceGo (c : Char) : Bool :=
  c = ' ' || c = '\t' || c = '\n' || c = '\r' ||
    c = Char.ofNat 11 || c = Char.ofNat 12

/-- `strings.TrimSpace` on the prompt input value. -/
def trimSpace (s : String) : String :=
  ⟨((s.toList.dropWhile isSpaceGo).reverse.dropWhile isSpaceGo).reverse⟩

/-- Modelled from the external `bubbles/textinput` collaborator: a character
key inserts its rune, backspace deletes one, every other key (cursor
movement, blink) leaves the value unchanged.  The cursor is elided; no
claim depends on this widget's internals. -/
def textInputUpdate (v : String) (k : String) : String :=
  if k = "backspace" then ⟨v.toList.dropLast⟩
  else if k.length = 1 then v ++ k
  else v

/-- `handlePromptKey` from `ui.go`: the modal add-device sub-state-machine.
`SaveConfig` is an external best-effort effect and is elided; the name-map
write itself is kept. -/
def handlePromptKey (m : Model) (k : String) (now : Nat) : Model :=
  if k = "esc" then
    { m with showPrompt := false, promptStep := "", pendingIP := "",
             promptFocused := false }
  else if k = "enter" then
    let value := trimSpace m.promptInput
    if m.promptStep = "ip" then
      if value = "" then
        { m with showPrompt := false, promptFocused := false }
      else if !isValidIP value then
        let m' := addLog m now ("Invalid IP: " ++ value)
        { m' with showPrompt := false, promptFocused := false }
      else
        { m with pendingIP := value, promptStep := "name",
                 promptPlaceholder := "(optional)", promptInput := "" }
    else if m.promptStep = "name" then
      let ip := m.pendingIP
      let name := value
      let m' :=
        if name ≠ "" then
          { m with config := ⟨mapInsert m.config.devices ip name⟩ }
        else m
      let md := addDevice m' ip name
      let m'' := addLog md.1 now ("Added device: " ++ md.2.name ++ " (" ++ ip ++ ")")
      { m'' with showPrompt := false, promptStep := "", pendingIP := "",
                 promptFocused := false }
    else m
  else
    { m with promptInput := textInputUpdate m.promptInput k }

/-- `handleKey` from `ui.go`: prompt routing, then the shortcut dispatcher.
`tea.Quit`, per-device polls and `discoverCmd` are commands (external
effects) and leave the state as written here. -/
def handleKey (m : Model) (k : String) (now : Nat) : Model :=
  if m.showPrompt then handlePromptKey m k now
  else if k = "q" ∨ k = "esc" ∨ k = "ctrl+c" then m
  else if k = "r" then addLog m now "Refreshing..."
  else if k = "a" then
    { m with showPrompt := true, promptStep := "ip",
             promptPlaceholder := "192.168.1.100", promptInput := "",
             promptFocused := true }
  else if k = "d" then
    if m.noDiscovery then addLog m now "Discovery disabled (--no-discovery)"
    else addLog m now "Restarting mDNS discovery..."
  else m

/-- The bubbletea messages consumed by `Update` in `ui.go`.  `discoveryBatch`
carries (ip, name) pairs of one discovery pass. -/
inductive Msg where
  | windowSize (width height : Int)
  | key (k : String)
  | tick
  | pollResult (ip : String) (data : Option SensorData) (err : Option String)
  | configResult (ip : String) (cfg : Option DeviceConfig)
  | discovered (ip name : String)
  | discoveryBatch (found : List (String × String))
deriving DecidableEq, Repr

/-- `Update` from `ui.go`: the state reducer.  Emitted commands (polls,
ticks, config fetches) are external effects; the clock is the explicit
`now`. -/
def Update (m : Model) (msg : Msg) (now : Nat) : Model :=
  match msg with
  | .windowSize w h => { m with width := w, height := h }
  | .key k => handleKey m k now
  | .tick => m
  | .pollResult ip data err =>
    match lookupIP m.devices ip with
    | none => m
    | some dev =>
      let dev' :=
        if err.isSome then { dev with lastError := err }
        else { dev with data := data, lastError := none, lastUpdate := some now }
      { m with devices := setDevice m.devices ip dev' }
  | .configResult ip cfg =>
    match cfg with
    | none => m
    | some c =>
      match lookupIP m.devices ip with
      | none => m
      | some dev =>
        let dev' : Device := { dev with config := some c }
        let dev'' :=
          if c.deviceUUID ≠ "" ∧ dev.name = dev.ip
          then { dev' with name := c.deviceUUID } else dev'
        { m with devices := setDevice m.devices ip dev'' }
  | .discovered ip name =>
    if (lookupIP m.devices ip).isSome then m
    else
      let md := addDevice m ip name
      addLog md.1 now ("Discovered: " ++ md.2.name ++ " at " ++ ip)
  | .discoveryBatch found =>
    let acc := found.foldl
      (fun (acc : Model × Nat) d =>
        if (lookupIP acc.1.devices d.1).isSome then acc
        else
          let md := addDevice acc.1 d.1 d.2
          (addLog md.1 now ("Discovered: " ++ md.2.name ++ " at " ++ d.1),
           acc.2 + 1))
      (m, 0)
    if acc.2 = 0 then addLog acc.1 now "No new devices found" else acc.1

/-- `clamp01` from `ui.go`. -/
def clamp01 (v : ℚ) : ℚ :=
  if v < 0 then 0 else if v > 1 then 1 else v

/-- Go `int(x)` conversion of a `float64`: truncation toward zero. -/
def goInt (q : ℚ) : Int :=
  if q < 0 then -⌊-q⌋ else ⌊q⌋

/-- Go `strings.Repeat`: panics on a negative count, modelled as `none`. -/
def goRepeat (c : Char) (n : Int) : Option String :=
  if n < 0 then none else some ⟨List.replicate n.toNat c⟩

/-- `renderGauge` from `ui.go` (color styling elided): the Awair-score
gauge bar of `width` cells. -/
def renderGauge (score : Int) (width : Int) : Option String :=
  if width ≤ 0 then some ""
  else
    let frac := clamp01 ((score : ℚ) / 100)
    let filled0 := goInt (frac * (width : ℚ))
    let filled := if filled0 > width then width else filled0
    match goRepeat '█' filled, goRepeat '░' (width - filled) with
    | some f, some e => some (f ++ e)
    | _, _ => none

/-- `renderSensorBar` from `ui.go` (color styling elided): per-sensor bar;
the ratio switch maps each sensor's display range onto [0,1], the `pm25`
key taking the Go `default` arm. -/
def renderSensorBar (key : String) (value : ℚ) (width : Int) : Option String :=
  if width ≤ 0 then some ""
  else
    let frac :=
      if key = "temp" then clamp01 ((value - 50) / 54)
      else if key = "dew_point" then clamp01 ((value - 30) / 50)
      else if key = "humid" then clamp01 (value / 100)
      else if key = "abs_humid" then clamp01 (value / 25)
      else if key = "co2" ∨ key = "co2_est" then clamp01 (value / 2500)
      else if key = "voc" then clamp01 (value / 1500)
      else if key = "pm10_est" then clamp01 (value / 200)
      else clamp01 (value / 100)
    let filled0 := goInt (frac * (width : ℚ))
    let filled := if filled0 > width then width else filled0
    match goRepeat '█' filled, goRepeat '░' (width - filled) with
    | some f, some e => some (f ++ e)
    | _, _ => none

/-- `visPadRight` from `ui.go` (visual width modelled as character count;
every glyph used is one cell wide). -/
def visPadRight (s : String) (n : Nat) : String :=
  if s.length ≥ n then s else s ++ ⟨List.replicate (n - s.length) ' '⟩

/-- `visPadLeft` from `ui.go`. -/
def visPadLeft (s : String) (n : Nat) : String :=
  if s.length ≥ n then s else (⟨List.replicate (n - s.length) ' '⟩ : String) ++ s

/-- The sensor-bar width computed in `renderDeviceContent`:
`barWidth := width - 30; if barWidth < 0 { barWidth = 0 }`. -/
def computeBarWidth (width : Int) : Int :=
  let b := width - 30
  if b < 0 then 0 else b

/-- What `renderDeviceContent` computes for one sensor entry: the padded
label, the padded formatted value, the tier (whose color styles the value),
and the bar — `none` when the bar is omitted (`barWidth ≤ 0`). -/
structure SensorCell where
  label : String
  valueText : String
  rating : String
  bar : Option String
deriving DecidableEq, Repr

/-- One sensor entry of `renderDeviceContent` (lines 626–648 of `ui.go`):
rating on the `DisplayValue`-normalized value, display string from
`FormatValue`, the bar only when `barWidth > 0`. -/
def renderSensorCell (fahrenheit : Bool) (key : String) (value : ℚ)
    (barWidth : Int) : Option SensorCell :=
  let r := (OptimalRanges key).getD ⟨0, 0, "", ""⟩
  let ratingVal := DisplayValue key value
  let rating := RateSensorValue key ratingVal
  let valStr := FormatValue key value fahrenheit
  let label := visPadRight r.label 14
  let valPad := visPadLeft valStr 12
  if barWidth > 0 then
    match renderSensorBar key ratingVal barWidth with
    | some bar => some ⟨label, valPad, rating, some bar⟩
    | none => none
  else
    some ⟨label, valPad, rating, none⟩

/-- The text of one sensor line as joined in `renderDeviceContent`:
`"%s %s  %s"` with the bar, `"%s %s"` without. -/
def sensorLineText (cell : SensorCell) : String :=
  match cell.bar with
  | some bar => cell.label ++ " " ++ cell.valueText ++ "  " ++ bar
  | none => cell.label ++ " " ++ cell.valueText

/-- A sequence of `addDevice` upsert calls, each an (ip, proposedName)
pair, applied in order. -/
def applyUpserts (m : Model) (calls : List (String × String)) : Model :=
  calls.foldl (fun m c => (addDevice m c.1 c.2).1) m

/-- The spec's "first-seen order" of distinct IPs, accumulated from `acc`. -/
def firstSeenFrom (acc : List String) (calls : List (String × String)) :
    List String :=
  calls.foldl (fun a c => if c.1 ∈ a then a else a ++ [c.1]) acc

/-- The spec's "first-seen order": each distinct IP of the call sequence,
once, in order of first appearance. -/
def firstSeen (calls : List (String × String)) : List String :=
  firstSeenFrom [] calls

/-- The registry invariant: the order sequence is duplicate-free, matches
the key set of the device map, and every stored device carries its key as
its `ip`. -/
def RegistryInv (m : Model) : Prop :=
  m.deviceOrder.Nodup ∧
  (∀ ip, ip ∈ m.deviceOrder ↔ (lookupIP m.devices ip).isSome) ∧
  (∀ ip d, lookupIP m.devices ip = some d → d.ip = ip)

/-- A concrete device used to instantiate the theorems below. -/
def sampleDevice : Device :=
  ⟨"10.0.0.5", "awair-x",
   some ⟨"t", 86, none, 23, 55, none, 965, none, none, 276, none, none, none, 2, none⟩,
   none, none, some 1⟩

/-- A concrete one-device state used to instantiate the theorems below. -/
def sampleModel : Model :=
  { devices := [("10.0.0.5", sampleDevice)], deviceOrder := ["10.0.0.5"],
    config := ⟨[]⟩, logs := [], width := 120, height := 40,
    fahrenheit := false, showPrompt := false, promptStep := "",
    promptInput := "", promptFocused := false, promptPlaceholder := "",
    pendingIP := "", pollInterval := 10, noDiscovery := false }

/-- A concrete state with the add-device prompt open at the IP step and an
invalid value typed in. -/
def samplePromptModel : Model :=
  { devices := [], deviceOrder := [], config := ⟨[]⟩, logs := [],
    width := 120, height := 40, fahrenheit := false, showPrompt := true,
    promptStep := "ip", promptInput := "not-an-ip", promptFocused := true,
    promptPlaceholder := "192.168.1.100", pendingIP := "",
    pollInterval := 10, noDiscovery := false }

section Theorems

/-! ## Rating (C3, C9) -/

/-- C3: for every lower-is-better sensor key (`co2`, `co2_est`, `voc`,
`pm25`, `pm10_est`) with catalog maximum `M`, `RateSensorValue` returns
`"good"` at or below `M`, `"fair"` strictly above `M` up to `2·M`, and
`"poor"` strictly above `2·M`. -/
theorem lower_is_better_rating (key : String) (v : ℚ)
    (hk : key = "co2" ∨ key = "co2_est" ∨ key = "voc" ∨ key = "pm25" ∨
      key = "pm10_est") :
    ∀ r, OptimalRanges key = some r →
      ((v ≤ r.max → RateSensorValue key v = "good") ∧
       (r.max < v → v ≤ 2 * r.max → RateSensorValue key v = "fair") ∧
       (2 * r.max < v → RateSensorValue key v = "poor")) := by
  have core : ∀ M : ℚ, 0 ≤ M →
      (v ≤ M →
        (if v ≤ M then "good" else if v ≤ M * 2 then "fair" else "poor") = "good") ∧
      (M < v → v ≤ 2 * M →
        (if v ≤ M then "good" else if v ≤ M * 2 then "fair" else "poor") = "fair") ∧
      (2 * M < v →
        (if v ≤ M then "good" else if v ≤ M * 2 then "fair" else "poor") = "poor") := by
    intro M hM
    refine ⟨fun h1 => ?_, fun h1 h2 => ?_, fun h1 => ?_⟩
    · rw [if_pos h1]
    · rw [if_neg (by linarith), if_pos (by linarith)]
    · rw [if_neg (by linarith), if_neg (by linarith)]
  intro r hr
  rcases hk with h | h | h | h | h <;> subst h <;>
    simp only [show OptimalRanges "co2" = some ⟨0, 600, "ppm", "CO₂"⟩ from rfl,
      show OptimalRanges "co2_est" = some ⟨0, 600, "ppm", "CO₂ (est)"⟩ from rfl,
      show OptimalRanges "voc" = some ⟨0, 300, "ppb", "VOC"⟩ from rfl,
      show OptimalRanges "pm25" = some ⟨0, 12, "µg/m³", "PM2.5"⟩ from rfl,
      show OptimalRanges "pm10_est" = some ⟨0, 50, "µg/m³", "PM10 (est)"⟩ from rfl,
      Option.some.injEq] at hr <;>
    subst hr <;> exact core _ (by norm_num)

/-- C9: `RateSensorValue` is total — a key outside the fixed catalog rates
`"fair"` for every value, and the result is always one of `"good"`,
`"fair"`, `"poor"`. -/
theorem rating_total (key : String) (v : ℚ) :
    (OptimalRanges key = none → RateSensorValue key v = "fair") ∧
    (RateSensorValue key v = "good" ∨ RateSensorValue key v = "fair" ∨
      RateSensorValue key v = "poor") := by
  constructor
  · intro h
    simp [RateSensorValue, h]
  · unfold RateSensorValue
    cases OptimalRanges key with
    | none => simp
    | some r => dsimp only; split_ifs <;> simp

/-- C9 witness: a key outside the catalog rates `"fair"`; a catalog key's
result is in the tier set. -/
theorem rating_total_witness :
    RateSensorValue "bogus" 0 = "fair" ∧
    (RateSensorValue "co2" 700 = "good" ∨ RateSensorValue "co2" 700 = "fair" ∨
      RateSensorValue "co2" 700 = "poor") :=
  ⟨(rating_total "bogus" 0).1 rfl, (rating_total "co2" 700).2⟩

/-- C3 witness: for `voc` (maximum 300), 300 rates good, 301 fair, 601
poor. -/
theorem lower_is_better_rating_witness :
    RateSensorValue "voc" 300 = "good" ∧ RateSensorValue "voc" 301 = "fair" ∧
    RateSensorValue "voc" 601 = "poor" := by
  have h300 := lower_is_better_rating "voc" 300 (by tauto) ⟨0, 300, "ppb", "VOC"⟩ rfl
  have h301 := lower_is_better_rating "voc" 301 (by tauto) ⟨0, 300, "ppb", "VOC"⟩ rfl
  have h601 := lower_is_better_rating "voc" 601 (by tauto) ⟨0, 300, "ppb", "VOC"⟩ rfl
  exact ⟨h300.1 (by norm_num), h301.2.1 (by norm_num) (by norm_num),
    h601.2.2 (by norm_num)⟩

/-! ## Poll interval (C4) -/

theorem addLog_pollInterval (m : Model) (now : Nat) (s : String) :
    (addLog m now s).pollInterval = m.pollInterval := rfl

theorem addDevice_pollInterval (m : Model) (ip name : String) :
    (addDevice m ip name).1.pollInterval = m.pollInterval := by
  unfold addDevice
  cases h : lookupIP m.devices ip <;> simp [h]

theorem initialModel_pollInterval (cfg : Config) (ips : List String)
    (interval : Int) (nd fht : Bool) (now : Nat) :
    (initialModel cfg ips interval nd fht now).pollInterval = interval := by
  unfold initialModel
  have step : ∀ (ips' : List String) (m : Model),
      (ips'.foldl (fun m ip =>
        addLog (addDevice m ip "").1 now
          ("Added device: " ++ (addDevice m ip "").2.name)) m).pollInterval
        = m.pollInterval := by
    intro ips'
    induction ips' with
    | nil => intro m; rfl
    | cons ip rest ih =>
      intro m
      rw [List.foldl_cons, ih, addLog_pollInterval, addDevice_pollInterval]
  dsimp only
  split_ifs with h
  · rw [step, addLog_pollInterval]
  · rw [step]

/-- C4 counterexample: the command line `-i 0` parses to interval 0 and the
model schedules polling ticks every 0 seconds — the claimed minimum of 1 is
not enforced anywhere. -/
theorem poll_interval_min_counterexample :
    parsedInterval (some 0) = 0 ∧
    (initialModel ⟨[]⟩ [] (parsedInterval (some 0)) false false 0).pollInterval = 0 ∧
    ¬(1 ≤ (initialModel ⟨[]⟩ [] (parsedInterval (some 0)) false false 0).pollInterval) := by
  refine ⟨rfl, ?_, ?_⟩
  · rw [initialModel_pollInterval]; rfl
  · rw [initialModel_pollInterval]; decide

/-- C4 (amended): the `-interval`/`-i` flag defaults to 10 seconds, and the
interval used to schedule polling ticks equals the parsed flag value — no
minimum is enforced. -/
theorem poll_interval_flag (cfg : Config) (ips : List String) (v : Int)
    (nd fht : Bool) (now : Nat) :
    parsedInterval none = 10 ∧ parsedInterval (some v) = v ∧
    (initialModel cfg ips (parsedInterval none) nd fht now).pollInterval = 10 ∧
    (initialModel cfg ips v nd fht now).pollInterval = v := by
  refine ⟨rfl, rfl, ?_, ?_⟩ <;> (rw [initialModel_pollInterval]; try rfl)

/-! ## Reducer determinism (C8) -/

/-- C8: the reducer is a pure function of the (state, message) pair (and
the abstracted clock): two runs on the same pair yield identical states. -/
theorem reducer_deterministic (m₁ m₂ : Model) (msg : Msg) (now : Nat)
    (h : m₁ = m₂) : Update m₁ msg now = Update m₂ msg now := by rw [h]

/-- C8 witness: two runs on the same concrete (state, message) pair agree. -/
theorem reducer_deterministic_witness :
    Update sampleModel (Msg.key "r") 5 = Update sampleModel (Msg.key "r") 5 :=
  reducer_deterministic sampleModel sampleModel (Msg.key "r") 5 rfl

/-! ## Bars (C10, C5) -/

theorem clamp01_nonneg (v : ℚ) : 0 ≤ clamp01 v := by
  unfold clamp01; split_ifs <;> linarith

theorem clamp01_le_one (v : ℚ) : clamp01 v ≤ 1 := by
  unfold clamp01; split_ifs <;> linarith

theorem goInt_nonneg (q : ℚ) (h : 0 ≤ q) : 0 ≤ goInt q := by
  unfold goInt
  rw [if_neg (not_lt.mpr h)]
  exact Int.floor_nonneg.mpr h

theorem repeat_match_length (filled w : Int) (h0 : 0 ≤ filled) (hw : filled ≤ w) :
    ∃ s : String,
      (match goRepeat '█' filled, goRepeat '░' (w - filled) with
       | some f, some e => some (f ++ e)
       | _, _ => none) = some s ∧ s.length = w.toNat := by
  refine ⟨⟨List.replicate filled.toNat '█' ++ List.replicate (w - filled).toNat '░'⟩,
    ?_, ?_⟩
  · unfold goRepeat
    rw [if_neg (by omega), if_neg (by omega)]
    rfl
  · show (List.replicate filled.toNat '█' ++ List.replicate (w - filled).toNat '░').length = w.toNat
    rw [List.length_append, List.length_replicate, List.length_replicate]
    omega

theorem renderGauge_ok (score w : Int) (hw : 0 < w) :
    ∃ s, renderGauge score w = some s ∧ s.length = w.toNat := by
  obtain ⟨s, hs, hl⟩ := repeat_match_length
    (if goInt (clamp01 ((score : ℚ) / 100) * (w : ℚ)) > w then w
     else goInt (clamp01 ((score : ℚ) / 100) * (w : ℚ))) w
    (by
      split_ifs with h
      · omega
      · exact goInt_nonneg _ (mul_nonneg (clamp01_nonneg _) (by exact_mod_cast hw.le)))
    (by split_ifs with h <;> omega)
  refine ⟨s, ?_, hl⟩
  rw [show renderGauge score w =
    (if w ≤ 0 then some "" else
      match goRepeat '█' (if goInt (clamp01 ((score : ℚ) / 100) * (w : ℚ)) > w then w
          else goInt (clamp01 ((score : ℚ) / 100) * (w : ℚ))),
        goRepeat '░' (w - (if goInt (clamp01 ((score : ℚ) / 100) * (w : ℚ)) > w then w
          else goInt (clamp01 ((score : ℚ) / 100) * (w : ℚ)))) with
      | some f, some e => some (f ++ e)
      | _, _ => none) from rfl]
  rw [if_neg (not_le.mpr hw)]
  exact hs

theorem renderSensorBar_frac_nonneg (key : String) (value : ℚ) :
    0 ≤ (if key = "temp" then clamp01 ((value - 50) / 54)
      else if key = "dew_point" then clamp01 ((value - 30) / 50)
      else if key = "humid" then clamp01 (value / 100)
      else if key = "abs_humid" then clamp01 (value / 25)
      else if key = "co2" ∨ key = "co2_est" then clamp01 (value / 2500)
      else if key = "voc" then clamp01 (value / 1500)
      else if key = "pm10_est" then clamp01 (value / 200)
      else clamp01 (value / 100)) := by
  split_ifs <;> exact clamp01_nonneg _

theorem renderSensorBar_ok (key : String) (v : ℚ) (w : Int) (hw : 0 < w) :
    ∃ s, renderSensorBar key v w = some s ∧ s.length = w.toNat := by
  set frac := (if key = "temp" then clamp01 ((v - 50) / 54)
      else if key = "dew_point" then clamp01 ((v - 30) / 50)
      else if key = "humid" then clamp01 (v / 100)
      else if key = "abs_humid" then clamp01 (v / 25)
      else if key = "co2" ∨ key = "co2_est" then clamp01 (v / 2500)
      else if key = "voc" then clamp01 (v / 1500)
      else if key = "pm10_est" then clamp01 (v / 200)
      else clamp01 (v / 100)) with hfrac
  obtain ⟨s, hs, hl⟩ := repeat_match_length
    (if goInt (frac * (w : ℚ)) > w then w else goInt (frac * (w : ℚ))) w
    (by
      split_ifs with h
      · omega
      · refine goInt_nonneg _ (mul_nonneg ?_ (by exact_mod_cast hw.le))
        rw [hfrac]
        exact renderSensorBar_frac_nonneg key v)
    (by split_ifs with h <;> omega)
  refine ⟨s, ?_, hl⟩
  rw [show renderSensorBar key v w =
    (if w ≤ 0 then some "" else
      match goRepeat '█' (if goInt (frac * (w : ℚ)) > w then w else goInt (frac * (w : ℚ))),
        goRepeat '░' (w - (if goInt (frac * (w : ℚ)) > w then w else goInt (frac * (w : ℚ)))) with
      | some f, some e => some (f ++ e)
      | _, _ => none) from by rw [hfrac]; rfl]
  rw [if_neg (not_le.mpr hw)]
  exact hs

/-- C10: for every positive width the gauge and sensor bars are produced
(never a panic from a negative repetition count) and span exactly `w`
cells; for non-positive width both render the empty string. -/
theorem bar_render_safety (score : Int) (key : String) (v : ℚ) (w : Int) :
    (0 < w →
      (∃ s, renderGauge score w = some s ∧ s.length = w.toNat) ∧
      (∃ s, renderSensorBar key v w = some s ∧ s.length = w.toNat)) ∧
    (w ≤ 0 → renderGauge score w = some "" ∧ renderSensorBar key v w = some "") := by
  constructor
  · intro hw
    exact ⟨renderGauge_ok score w hw, renderSensorBar_ok key v w hw⟩
  · intro hw
    constructor
    · simp only [renderGauge]
      rw [if_pos hw]
    · simp only [renderSensorBar]
      rw [if_pos hw]

/-- C10 witness: at width 5 both bars are five cells; at width 0 both are
empty. -/
theorem bar_render_safety_witness :
    (renderGauge 50 5).map String.length = some 5 ∧
    (renderSensorBar "pm25" 3 5).map String.length = some 5 ∧
    renderGauge 50 0 = some "" ∧ renderSensorBar "pm25" 3 0 = some "" := by
  obtain ⟨⟨s, hs, hsl⟩, ⟨t, ht, htl⟩⟩ :=
    (bar_render_safety 50 "pm25" 3 5).1 (by norm_num)
  have hz := (bar_render_safety 50 "pm25" 3 0).2 (by norm_num)
  rw [hs, ht]
  simp [hsl, htl, hz.1, hz.2]

/-- C5: the computed sensor-bar width is `max 0 (W − 30)`, and whenever
`W − 30` is zero or negative the rendered sensor line omits the bar
entirely — only the padded label and value appear. -/
theorem bar_degradation (W : Int) (fht : Bool) (key : String) (v : ℚ) :
    computeBarWidth W = max 0 (W - 30) ∧
    (W - 30 ≤ 0 →
      ∀ cell, renderSensorCell fht key v (computeBarWidth W) = some cell →
        cell.bar = none ∧
        sensorLineText cell = cell.label ++ " " ++ cell.valueText) := by
  constructor
  · unfold computeBarWidth
    dsimp only
    rw [Int.max_def]
    split_ifs <;> omega
  · intro hW cell hcell
    have hbw : computeBarWidth W = 0 := by
      unfold computeBarWidth; dsimp only; split_ifs <;> omega
    rw [hbw] at hcell
    rw [show renderSensorCell fht key v 0 =
      some ⟨visPadRight ((OptimalRanges key).getD ⟨0, 0, "", ""⟩).label 14,
            visPadLeft (FormatValue key v fht) 12,
            RateSensorValue key (DisplayValue key v), none⟩ from rfl,
      Option.some.injEq] at hcell
    subst hcell
    exact ⟨rfl, rfl⟩

/-- C5 witness: at interior width 20 the bar width is 0 and the `co2` line
renders label and value only, with no bar. -/
theorem bar_degradation_witness :
    computeBarWidth 20 = max 0 (20 - 30) ∧
    (⟨visPadRight ((OptimalRanges "co2").getD ⟨0, 0, "", ""⟩).label 14,
      visPadLeft (FormatValue "co2" 0 false) 12,
      RateSensorValue "co2" (DisplayValue "co2" 0), none⟩ : SensorCell).bar = none ∧
    sensorLineText ⟨visPadRight ((OptimalRanges "co2").getD ⟨0, 0, "", ""⟩).label 14,
      visPadLeft (FormatValue "co2" 0 false) 12,
      RateSensorValue "co2" (DisplayValue "co2" 0), none⟩ =
      visPadRight ((OptimalRanges "co2").getD ⟨0, 0, "", ""⟩).label 14 ++ " " ++
        visPadLeft (FormatValue "co2" 0 false) 12 := by
  have h := bar_degradation 20 false "co2" 0
  have h2 := h.2 (by norm_num)
    ⟨visPadRight ((OptimalRanges "co2").getD ⟨0, 0, "", ""⟩).label 14,
     visPadLeft (FormatValue "co2" 0 false) 12,
     RateSensorValue "co2" (DisplayValue "co2" 0), none⟩ rfl
  exact ⟨h.1, h2.1, h2.2⟩

/-! ## Display-unit noninterference (C7) -/

theorem renderSensorCell_eq (fht : Bool) (key : String) (v : ℚ) (bw : Int) :
    renderSensorCell fht key v bw =
      if bw > 0 then
        match renderSensorBar key (DisplayValue key v) bw with
        | some bar =>
            some ⟨visPadRight ((OptimalRanges key).getD ⟨0, 0, "", ""⟩).label 14,
                  visPadLeft (FormatValue key v fht) 12,
                  RateSensorValue key (DisplayValue key v), some bar⟩
        | none => none
      else
        some ⟨visPadRight ((OptimalRanges key).getD ⟨0, 0, "", ""⟩).label 14,
              visPadLeft (FormatValue key v fht) 12,
              RateSensorValue key (DisplayValue key v), none⟩ := rfl

/-- C7: for the temperature-like keys the rendered tier is identical with
the fahrenheit display flag set or clear — the flag changes only the
formatted value text — and the tier is computed on the
Fahrenheit-normalized `DisplayValue`. -/
theorem display_unit_noninterference (key : String) (c : ℚ) (bw : Int)
    (hk : key = "temp" ∨ key = "dew_point") :
    renderSensorCell true key c bw =
      (renderSensorCell false key c bw).map
        (fun cell => { cell with valueText := visPadLeft (FormatValue key c true) 12 }) ∧
    (∀ cell, renderSensorCell false key c bw = some cell →
      cell.rating = RateSensorValue key (CToF c) ∧
      DisplayValue key c = CToF c) := by
  have hdv : DisplayValue key c = CToF c := by
    rcases hk with h | h <;> subst h <;> rfl
  constructor
  · rw [renderSensorCell_eq, renderSensorCell_eq]
    by_cases hb : bw > 0
    · rw [if_pos hb, if_pos hb]
      cases hbar : renderSensorBar key (DisplayValue key c) bw <;> simp [hbar]
    · rw [if_neg hb, if_neg hb]
      simp
  · intro cell hcell
    rw [renderSensorCell_eq] at hcell
    by_cases hb : bw > 0
    · rw [if_pos hb] at hcell
      cases hbar : renderSensorBar key (DisplayValue key c) bw
      · rw [hbar] at hcell
        exact absurd hcell (by simp)
      · rw [hbar] at hcell
        injection hcell with h
        subst h
        exact ⟨by rw [hdv], hdv⟩
    · rw [if_neg hb] at hcell
      injection hcell with h
      subst h
      exact ⟨by rw [hdv], hdv⟩

/-- C7 witness: at a raw reading of 25 °C the `temp` cell differs between
the two flag values only in its value text, and its tier is the tier of
the normalized Fahrenheit value. -/
theorem display_unit_noninterference_witness :
    renderSensorCell true "temp" 25 0 =
      (renderSensorCell false "temp" 25 0).map
        (fun cell => { cell with valueText := visPadLeft (FormatValue "temp" 25 true) 12 }) ∧
    ((⟨visPadRight ((OptimalRanges "temp").getD ⟨0, 0, "", ""⟩).label 14,
       visPadLeft (FormatValue "temp" 25 false) 12,
       RateSensorValue "temp" (DisplayValue "temp" 25), none⟩ : SensorCell).rating
        = RateSensorValue "temp" (CToF 25) ∧
     DisplayValue "temp" 25 = CToF 25) := by
  have h := display_unit_noninterference "temp" 25 0 (Or.inl rfl)
  exact ⟨h.1, h.2 _ rfl⟩

/-! ## Poll-result handling (C2) -/

theorem lookupIP_setDevice (xs : List (String × Device)) (ip : String)
    (d : Device) (j : String) :
    lookupIP (setDevice xs ip d) j =
      if j = ip then (lookupIP xs ip).map (fun _ => d) else lookupIP xs j := by
  induction xs with
  | nil =>
    simp [setDevice, lookupIP]
  | cons p rest ih =>
    obtain ⟨k, b⟩ := p
    show lookupIP ((if k = ip then (ip, d) else (k, b)) :: setDevice rest ip d) j = _
    by_cases hk : k = ip
    · rw [if_pos hk]
      subst hk
      show (if j = k then some d else lookupIP (setDevice rest k d) j) = _
      by_cases hj : j = k
      · rw [if_pos hj, if_pos hj]
        show some d = (if k = k then some b else lookupIP rest k).map (fun _ => d)
        rw [if_pos rfl]
        rfl
      · rw [if_neg hj, if_neg hj, ih, if_neg hj]
        show lookupIP rest j = if j = k then some b else lookupIP rest j
        rw [if_neg hj]
    · rw [if_neg hk]
      show (if j = k then some b else lookupIP (setDevice rest ip d) j) = _
      by_cases hj : j = k
      · subst hj
        rw [if_pos rfl, if_neg (fun h => hk (h.symm.trans rfl).symm)]
        show some b = if j = j then some b else lookupIP rest j
        rw [if_pos rfl]
      · rw [if_neg hj, ih]
        by_cases hji : j = ip
        · rw [if_pos hji, if_pos hji]
          show (lookupIP rest ip).map (fun _ => d)
              = (if ip = k then some b else lookupIP rest ip).map (fun _ => d)
          rw [if_neg (fun h => hk h.symm)]
        · rw [if_neg hji, if_neg hji]
          show lookupIP rest j = if j = k then some b else lookupIP rest j
          rw [if_neg hj]

/-- C2: for every PollResult message — if the IP is unknown the state is
unchanged; if known, an error result sets only the device's last error
(reading and timestamp untouched), while a success replaces the reading
wholesale, clears the error and stamps the time; no other device, the
order, or the log is touched. -/
theorem poll_result_reducer (m : Model) (ip : String) (data : Option SensorData)
    (err : Option String) (now : Nat) :
    (lookupIP m.devices ip = none → Update m (Msg.pollResult ip data err) now = m) ∧
    (∀ dev, lookupIP m.devices ip = some dev →
      (Update m (Msg.pollResult ip data err) now).deviceOrder = m.deviceOrder ∧
      (Update m (Msg.pollResult ip data err) now).logs = m.logs ∧
      (∀ j, j ≠ ip → lookupIP (Update m (Msg.pollResult ip data err) now).devices j
          = lookupIP m.devices j) ∧
      (err ≠ none → lookupIP (Update m (Msg.pollResult ip data err) now).devices ip
          = some { dev with lastError := err }) ∧
      (err = none → lookupIP (Update m (Msg.pollResult ip data err) now).devices ip
          = some { dev with data := data, lastError := none,
                            lastUpdate := some now })) := by
  constructor
  · intro h
    simp only [Update, h]
  · intro dev hdev
    refine ⟨?_, ?_, ?_, ?_, ?_⟩
    · simp only [Update, hdev]
    · simp only [Update, hdev]
    · intro j hj
      simp only [Update, hdev]
      rw [lookupIP_setDevice, if_neg hj]
    · intro herr
      have hsome : err.isSome := Option.ne_none_iff_isSome.mp herr
      simp only [Update, hdev, hsome, if_pos]
      rw [lookupIP_setDevice, if_pos rfl, hdev]
      rfl
    · intro herr
      subst herr
      simp only [Update, hdev, Option.isSome_none, Bool.false_eq_true, if_false]
      rw [lookupIP_setDevice, if_pos rfl, hdev]
      rfl

/-- C2 witness: an error result for the registered sample device keeps its
reading and timestamp and records the error; the device map entry is
exactly the old device with only the error field set. -/
theorem poll_result_reducer_witness :
    lookupIP (Update sampleModel
        (Msg.pollResult "10.0.0.5" none (some "HTTP 500")) 9).devices "10.0.0.5"
      = some { sampleDevice with lastError := some "HTTP 500" } ∧
    (Update sampleModel (Msg.pollResult "10.0.0.5" none (some "HTTP 500")) 9).deviceOrder
      = sampleModel.deviceOrder ∧
    Update sampleModel (Msg.pollResult "172.16.0.9" none (some "HTTP 500")) 9
      = sampleModel := by
  have h := (poll_result_reducer sampleModel "10.0.0.5" none (some "HTTP 500") 9).2
    sampleDevice rfl
  have h0 := (poll_result_reducer sampleModel "172.16.0.9" none (some "HTTP 500") 9).1 rfl
  exact ⟨h.2.2.2.1 (by simp), h.1, h0⟩

/-! ## Invalid-IP prompt handling (C6) -/

theorem addLog_getLast (m : Model) (now : Nat) (s : String) :
    (addLog m now s).logs.getLast? = some ⟨now, s⟩ := by
  simp only [addLog]
  split_ifs with h
  · cases hl : m.logs with
    | nil =>
      rw [hl] at h
      simp at h
    | cons x xs =>
      show (xs ++ [(⟨now, s⟩ : LogEntry)]).getLast? = _
      rw [List.getLast?_append]
      rfl
  · rw [List.getLast?_append]
    rfl

/-- C6: confirming a non-empty, syntactically invalid IP while the prompt
awaits an IP appends exactly one `"Invalid IP: <value>"` log entry, closes
the prompt, and leaves the device registry (map and order) unchanged. -/
theorem invalid_ip_prompt (m : Model) (now : Nat)
    (hp : m.showPrompt = true) (hstep : m.promptStep = "ip")
    (hne : trimSpace m.promptInput ≠ "")
    (hbad : isValidIP (trimSpace m.promptInput) = false) :
    (Update m (Msg.key "enter") now).logs.getLast?
        = some ⟨now, "Invalid IP: " ++ trimSpace m.promptInput⟩ ∧
    (m.logs.length < 100 →
      (Update m (Msg.key "enter") now).logs
        = m.logs ++ [⟨now, "Invalid IP: " ++ trimSpace m.promptInput⟩]) ∧
    (Update m (Msg.key "enter") now).showPrompt = false ∧
    (Update m (Msg.key "enter") now).devices = m.devices ∧
    (Update m (Msg.key "enter") now).deviceOrder = m.deviceOrder := by
  have hred : Update m (Msg.key "enter") now =
      { addLog m now ("Invalid IP: " ++ trimSpace m.promptInput) with
        showPrompt := false, promptFocused := false } := by
    show handleKey m "enter" now = _
    unfold handleKey
    rw [hp, if_pos rfl]
    unfold handlePromptKey
    rw [if_neg (show ¬(("enter" : String) = "esc") by decide), if_pos rfl]
    dsimp only
    rw [hstep, if_pos rfl, if_neg hne, hbad]
    rw [if_pos (show (!false) = true by decide)]
  refine ⟨?_, ?_, ?_, ?_, ?_⟩
  · rw [hred]
    show (addLog m now ("Invalid IP: " ++ trimSpace m.promptInput)).logs.getLast? = _
    exact addLog_getLast m now _
  · intro hlen
    rw [hred]
    show (addLog m now ("Invalid IP: " ++ trimSpace m.promptInput)).logs = _
    simp only [addLog]
    rw [if_neg (by rw [List.length_append]; simp; omega)]
  · rw [hred]
  · rw [hred]
    rfl
  · rw [hred]
    rfl

/-- C6 witness: confirming the value "not-an-ip" in the sample prompt state
logs the invalid-IP message, closes the prompt and leaves the registry
unchanged. -/
theorem invalid_ip_prompt_witness :
    (Update samplePromptModel (Msg.key "enter") 7).logs.getLast?
        = some ⟨7, "Invalid IP: " ++ trimSpace samplePromptModel.promptInput⟩ ∧
    (Update samplePromptModel (Msg.key "enter") 7).showPrompt = false ∧
    (Update samplePromptModel (Msg.key "enter") 7).devices
        = samplePromptModel.devices ∧
    (Update samplePromptModel (Msg.key "enter") 7).deviceOrder
        = samplePromptModel.deviceOrder := by
  have h := invalid_ip_prompt samplePromptModel 7 rfl rfl (by decide) (by decide)
  exact ⟨h.1, h.2.2.1, h.2.2.2.1, h.2.2.2.2⟩

/-! ## Registry order invariant (C1) -/

theorem lookupIP_append_single {α : Type} (xs : List (String × α)) (k : String)
    (d : α) (j : String) :
    lookupIP (xs ++ [(k, d)]) j =
      match lookupIP xs j with
      | some v => some v
      | none => if j = k then some d else none := by
  induction xs with
  | nil =>
    show (if j = k then some d else none) = _
    cases hj : (if j = k then some d else (none : Option α)) <;> rfl
  | cons p rest ih =>
    obtain ⟨a, b⟩ := p
    show (if j = a then some b else lookupIP (rest ++ [(k, d)]) j) = _
    by_cases hj : j = a
    · rw [if_pos hj]
      show some b = (match (if j = a then some b else lookupIP rest j : Option α) with
        | some v => some v
        | none => if j = k then some d else none)
      rw [if_pos hj]
    · rw [if_neg hj, ih]
      show _ = (match (if j = a then some b else lookupIP rest j) with
        | some v => some v
        | none => if j = k then some d else none)
      rw [if_neg hj]

theorem addDevice_order (m : Model) (ip name : String) :
    (addDevice m ip name).1.deviceOrder =
      if (lookupIP m.devices ip).isSome then m.deviceOrder
      else m.deviceOrder ++ [ip] := by
  unfold addDevice
  cases h : lookupIP m.devices ip <;> simp [h]

theorem addDevice_lookup_some (m : Model) (ip name : String) (e : Device)
    (h : lookupIP m.devices ip = some e) :
    (addDevice m ip name).1.devices =
      setDevice m.devices ip
        (if configNameOf m ip ≠ "" then { e with name := configNameOf m ip }
         else if name ≠ "" ∧ e.name = ip then { e with name := name }
         else e) := by
  unfold addDevice
  rw [h]

theorem addDevice_lookup_none (m : Model) (ip name : String)
    (h : lookupIP m.devices ip = none) :
    (addDevice m ip name).1.devices =
      m.devices ++ [(ip,
        ⟨ip, if configNameOf m ip ≠ "" then configNameOf m ip
             else if name ≠ "" then name else ip,
         none, none, none, none⟩)] := by
  unfold addDevice
  rw [h]

theorem addDevice_isSome_iff (m : Model) (ip name j : String) :
    (lookupIP (addDevice m ip name).1.devices j).isSome ↔
      (lookupIP m.devices j).isSome ∨ j = ip := by
  cases h : lookupIP m.devices ip with
  | some e =>
    rw [addDevice_lookup_some m ip name e h, lookupIP_setDevice]
    by_cases hj : j = ip
    · subst hj
      rw [if_pos rfl, h]
      simp
    · rw [if_neg hj]
      simp [hj]
  | none =>
    rw [addDevice_lookup_none m ip name h, lookupIP_append_single]
    cases hj : lookupIP m.devices j with
    | some v => simp
    | none =>
      by_cases hji : j = ip
      · rw [if_pos hji]
        simp [hji]
      · rw [if_neg hji]
        simp [hji]

theorem addDevice_ip_field (m : Model) (ip name : String)
    (h2 : ∀ k e, lookupIP m.devices k = some e → e.ip = k) :
    ∀ j d, lookupIP (addDevice m ip name).1.devices j = some d → d.ip = j := by
  intro j d hl
  cases h : lookupIP m.devices ip with
  | some e =>
    rw [addDevice_lookup_some m ip name e h, lookupIP_setDevice] at hl
    by_cases hj : j = ip
    · subst hj
      rw [if_pos rfl, h] at hl
      have he := h2 j e h
      have : d = (if configNameOf m j ≠ "" then { e with name := configNameOf m j }
          else if name ≠ "" ∧ e.name = j then { e with name := name }
          else e) := by
        have := hl.symm
        simpa using this
      rw [this]
      split_ifs <;> simpa using he
    · rw [if_neg hj] at hl
      exact h2 j d hl
  | none =>
    rw [addDevice_lookup_none m ip name h, lookupIP_append_single] at hl
    cases hjl : lookupIP m.devices j with
    | some v =>
      rw [hjl] at hl
      cases hl
      exact h2 j d hjl
    | none =>
      rw [hjl] at hl
      by_cases hji : j = ip
      · rw [if_pos hji] at hl
        cases hl
        exact hji.symm
      · rw [if_neg hji] at hl
        cases hl

theorem addDevice_inv (m : Model) (ip name : String) (h : RegistryInv m) :
    RegistryInv (addDevice m ip name).1 := by
  obtain ⟨hnd, hmem, hip⟩ := h
  refine ⟨?_, ?_, addDevice_ip_field m ip name hip⟩
  · rw [addDevice_order]
    split_ifs with hs
    · exact hnd
    · have hnotin : ip ∉ m.deviceOrder := fun hin => hs (by
        have := (hmem ip).mp hin
        simpa using this)
      simp [List.nodup_append, hnd, hnotin]
  · intro j
    rw [addDevice_order, addDevice_isSome_iff]
    split_ifs with hs
    · rw [hmem j]
      constructor
      · exact Or.inl
      · rintro (hj | rfl)
        · exact hj
        · simpa using hs
    · simp only [List.mem_append, List.mem_singleton, hmem j]

theorem applyUpserts_spec (calls : List (String × String)) (m : Model)
    (h : RegistryInv m) :
    RegistryInv (applyUpserts m calls) ∧
    (applyUpserts m calls).deviceOrder = firstSeenFrom m.deviceOrder calls := by
  induction calls generalizing m with
  | nil => exact ⟨h, rfl⟩
  | cons c rest ih =>
    have hstep := addDevice_inv m c.1 c.2 h
    have horder : (addDevice m c.1 c.2).1.deviceOrder =
        if c.1 ∈ m.deviceOrder then m.deviceOrder else m.deviceOrder ++ [c.1] := by
      rw [addDevice_order]
      by_cases hmem : c.1 ∈ m.deviceOrder
      · rw [if_pos ((h.2.1 c.1).mp hmem), if_pos hmem]
      · rw [if_neg (fun hs => hmem ((h.2.1 c.1).mpr hs)), if_neg hmem]
    obtain ⟨hinv, hord⟩ := ih (addDevice m c.1 c.2).1 hstep
    refine ⟨hinv, ?_⟩
    show (applyUpserts (addDevice m c.1 c.2).1 rest).deviceOrder = _
    rw [hord, horder]
    rfl

theorem mem_firstSeenFrom (calls : List (String × String)) (acc : List String)
    (x : String) :
    x ∈ firstSeenFrom acc calls ↔ x ∈ acc ∨ x ∈ calls.map Prod.fst := by
  induction calls generalizing acc with
  | nil => simp [firstSeenFrom]
  | cons c rest ih =>
    show x ∈ firstSeenFrom (if c.1 ∈ acc then acc else acc ++ [c.1]) rest ↔ _
    rw [ih]
    by_cases h : c.1 ∈ acc
    · rw [if_pos h]
      simp only [List.map_cons, List.mem_cons]
      constructor
      · rintro (hx | hx)
        · exact Or.inl hx
        · exact Or.inr (Or.inr hx)
      · rintro (hx | hx | hx)
        · exact Or.inl hx
        · exact Or.inl (hx.symm ▸ h)
        · exact Or.inr hx
    · rw [if_neg h]
      simp only [List.mem_append, List.mem_cons, List.not_mem_nil, or_false,
        List.map_cons]
      tauto

theorem orderedDevices_map_ip (m : Model) (h : RegistryInv m) :
    (orderedDevices m).map Device.ip = m.deviceOrder := by
  obtain ⟨-, hmem, hip⟩ := h
  unfold orderedDevices
  have general : ∀ order : List String,
      (∀ j ∈ order, (lookupIP m.devices j).isSome) →
      (order.filterMap (fun ip => lookupIP m.devices ip)).map Device.ip = order := by
    intro order
    induction order with
    | nil => intro _; rfl
    | cons a rest ih =>
      intro hall
      obtain ⟨d, hd⟩ := Option.isSome_iff_exists.mp (hall a (List.mem_cons_self a rest))
      rw [List.filterMap_cons, hd]
      simp only [List.map_cons]
      rw [hip a d hd, ih (fun j hj => hall j (List.mem_cons_of_mem a hj))]
  exact general m.deviceOrder (fun j hj => (hmem j).mp hj)

theorem initialModel_registry_empty (cfg : Config) (interval : Int)
    (nd fht : Bool) (now : Nat) :
    (initialModel cfg [] interval nd fht now).devices = [] ∧
    (initialModel cfg [] interval nd fht now).deviceOrder = [] := by
  unfold initialModel
  dsimp only
  split_ifs <;> exact ⟨rfl, rfl⟩

theorem initialModel_registry_inv (cfg : Config) (interval : Int)
    (nd fht : Bool) (now : Nat) :
    RegistryInv (initialModel cfg [] interval nd fht now) := by
  obtain ⟨hd, ho⟩ := initialModel_registry_empty cfg interval nd fht now
  refine ⟨?_, ?_, ?_⟩
  · rw [ho]; exact List.nodup_nil
  · intro ip
    rw [ho, hd]
    simp [lookupIP]
  · intro ip d hl
    rw [hd] at hl
    simp [lookupIP] at hl

/-- C1: after any sequence of upsert calls on a fresh registry,
`orderedDevices` yields exactly one device per distinct IP ever seen, in
first-seen order, with no duplicates; the order sequence has one entry per
distinct IP and exactly matches the key set of the device map. -/
theorem registry_order_invariant (cfg : Config) (interval : Int)
    (nd fht : Bool) (now : Nat) (calls : List (String × String)) :
    (applyUpserts (initialModel cfg [] interval nd fht now) calls).deviceOrder
        = firstSeen calls ∧
    (applyUpserts (initialModel cfg [] interval nd fht now) calls).deviceOrder.Nodup ∧
    (∀ ip, ip ∈ (applyUpserts (initialModel cfg [] interval nd fht now) calls).deviceOrder
        ↔ ip ∈ calls.map Prod.fst) ∧
    (orderedDevices (applyUpserts (initialModel cfg [] interval nd fht now) calls)).map
        Device.ip
        = (applyUpserts (initialModel cfg [] interval nd fht now) calls).deviceOrder ∧
    (orderedDevices (applyUpserts (initialModel cfg [] interval nd fht now) calls)).length
        = (applyUpserts (initialModel cfg [] interval nd fht now) calls).deviceOrder.length ∧
    (∀ ip, ip ∈ (applyUpserts (initialModel cfg [] interval nd fht now) calls).deviceOrder
        ↔ (lookupIP (applyUpserts (initialModel cfg [] interval nd fht now) calls).devices
            ip).isSome) := by
  obtain ⟨hinv, hord⟩ := applyUpserts_spec calls _
    (initialModel_registry_inv cfg interval nd fht now)
  obtain ⟨-, horder⟩ := initialModel_registry_empty cfg interval nd fht now
  rw [horder] at hord
  have hmap := orderedDevices_map_ip _ hinv
  refine ⟨hord, hinv.1, ?_, hmap, ?_, hinv.2.1⟩
  · intro ip
    rw [hord]
    have := mem_firstSeenFrom calls [] ip
    simpa [firstSeen] using this
  · have := congrArg List.length hmap
    simpa using this

end Theorems

end AwairTui
